import Mathlib

/-!
# Shallow embedding of `app.py` from gitdeath/cf-search

The program scans Radarr/Sonarr instances for media items eligible for a
quality-upgrade search, classifies them into two tiers ("quality cutoff not
met" and "custom-format score below cutoff"), applies per-instance and global
selection budgets, groups the selection into search commands, and records the
searched items in a cooldown history.

API fetches are embedded as data attached to the input records: a field of
type `Option _` holds the response the corresponding `_get` call returned
(`none` = request failed).  Timestamps (`time.time()`) are modelled as an
explicit `now : Int` parameter.  Log output is not modelled.
-/

set_option linter.unusedVariables false

namespace CFSearch

/-- `sys.maxsize` of a 64-bit CPython process; `load_configs` uses it as the
"unlimited" sentinel for per-instance caps. -/
def sysMaxsize : Nat := 2 ^ 63 - 1

/-- Decimal digits of a Python integer literal: non-empty and all digits. -/
def parseNatDigits (cs : List Char) : Option Nat :=
  if cs ≠ [] ∧ cs.all (fun c => c.isDigit) then
    some (cs.foldl (fun n c => n * 10 + (c.toNat - '0'.toNat)) 0)
  else none

/-- Python's `int(str)` on the strings `load_configs` reads from the
environment: an optional sign followed by decimal digits, `none` when
`ValueError` would be raised.  (Python also strips surrounding whitespace and
allows `_` grouping; those inputs are not relevant to the claims.) -/
def pyInt (s : String) : Option Int :=
  match s.toList with
  | '-' :: rest => (parseNatDigits rest).map (fun n => -(n : Int))
  | '+' :: rest => (parseNatDigits rest).map (fun n => (n : Int))
  | cs => (parseNatDigits cs).map (fun n => (n : Int))

/-- Normalization of the `{prefix}_NUM_TO_UPGRADE` environment value,
`load_configs`, app.py lines 483-496: missing → unlimited; unparsable →
unlimited (with a warning); negative → unlimited; otherwise the value. -/
def normNumToUpgrade (s : Option String) : Nat :=
  match s with
  | none => sysMaxsize
  | some str =>
    match pyInt str with
    | none => sysMaxsize
    | some v => if v < 0 then sysMaxsize else v.toNat

/-- Normalization of the `{prefix}_NUM_CUTOFF_UNMET_TO_UPGRADE` environment
value, `load_configs`, app.py lines 498-511: the default starts at `0`
("Default to 0 if not specified") and a missing variable keeps it; unparsable
→ unlimited; negative → unlimited; otherwise the value. -/
def normNumCutoffUnmet (s : Option String) : Nat :=
  match s with
  | none => 0
  | some str =>
    match pyInt str with
    | none => sysMaxsize
    | some v => if v < 0 then sysMaxsize else v.toNat

/-- Normalization of the `{prefix}_QUEUE_SIZE_LIMIT` environment value,
`load_configs`, app.py lines 513-524: missing → disabled (`none`); unparsable
→ disabled; negative → disabled; otherwise the value. -/
def normQueueSizeLimit (s : Option String) : Option Int :=
  match s with
  | none => none
  | some str =>
    match pyInt str with
    | none => none
    | some v => if v < 0 then none else some v

/-- The JSON body answering the `queue` endpoint; `get_queue_size` reads
`totalRecords` with default `0`. -/
structure QueueResp where
  totalRecords : Option Int
deriving DecidableEq

/-- `ArrService.get_queue_size`, app.py lines 145-155: a failed request
(`queue is None`) yields `0`, otherwise `queue.get("totalRecords", 0)`. -/
def getQueueSize (resp : Option QueueResp) : Int :=
  match resp with
  | none => 0
  | some q => q.totalRecords.getD 0

/-- The queue gate of `get_radarr_upgradeables` (lines 212-218) and
`get_sonarr_upgradeables` (lines 349-355): when a `queue_size_limit` is
configured and the current queue size is at-or-above it, the instance is
skipped. -/
def queueGateSkips (queueLimit : Option Int) (resp : Option QueueResp) : Bool :=
  match queueLimit with
  | none => false
  | some lim => decide (getQueueSize resp ≥ lim)

/-- The search history (`search_history`), a JSON object mapping dedup key to
last-searched epoch timestamp, modelled as an association list in key
insertion order. -/
abbrev History : Type := List (String × Int)

/-- Python `dict` assignment `h[k] = v`: replace the value when the key is
present, otherwise append the binding. -/
def setKey (h : History) (k : String) (v : Int) : History :=
  if h.any (fun p => p.1 = k) then
    h.map (fun p => if p.1 = k then (k, v) else p)
  else
    h ++ [(k, v)]

/-- Dict lookup `h.get(k)`. -/
def getKey (h : History) (k : String) : Option Int :=
  h.lookup k

/-- The cooldown test shared by both classifiers (app.py lines 253-257 and
404-408): `if last_searched_timestamp and (time.time() - last) < cooldown`.
Python truthiness makes a stored timestamp of `0` count as absent. -/
def cooldownActive (history : History) (key : String) (now cooldown : Int) : Bool :=
  match getKey history key with
  | none => false
  | some ts => ts != 0 && decide (now - ts < cooldown)

/-- A selected/classified item as built by the classifiers and enriched by
`main` (app.py lines 840-845).  Movies carry `type = "movie"`; episodes carry
`type = "episode"` plus `seriesId`/`seasonNumber`.  The `service`,
`serviceType` and `searchMode` fields are attached by `main` before dispatch
(the classifiers leave them at their defaults). -/
structure SearchItem where
  id : Nat
  title : String
  type : String
  seriesId : Nat := 0
  seasonNumber : Nat := 0
  service : Nat := 0
  serviceType : String := ""
  searchMode : Option String := none
deriving DecidableEq

/-- The dedup key written by `update_history`, app.py line 690:
`f"{item['service_type']}-{item['id']}"`. -/
def historyKey (it : SearchItem) : String :=
  it.serviceType ++ "-" ++ toString it.id

/-- `update_history`, app.py lines 680-690: each searched item is recorded
under `historyKey` at the current time. -/
def updateHistory (items : List SearchItem) (h : History) (now : Int) : History :=
  items.foldl (fun acc it => setKey acc (historyKey it) now) h

/-- Two-digit zero padding, Python's `f"{n:02d}"` for non-negative `n`. -/
def pad2 (n : Nat) : String :=
  if n < 10 then "0" ++ toString n else toString n

/-- One entry of the `qualityprofile` mapping produced by
`get_quality_profile_details`, app.py lines 104-131. -/
structure ProfileInfo where
  cutoffFormatScore : Option Int
  cutoffQualityName : String
deriving DecidableEq

/-- `quality_profile_details.get(profile_id, {}).get("cutoffFormatScore")`:
the cutoff score of a profile id, `none` when the profile is unknown or the
score is absent. -/
def cutoffScoreOf (profiles : List (Nat × ProfileInfo)) (pid : Option Nat) : Option Int :=
  match pid with
  | none => none
  | some p =>
    match profiles.lookup p with
    | none => none
    | some info => info.cutoffFormatScore

/-- The `moviefile/{id}` response fields read by `get_radarr_upgradeables`. -/
structure MovieFile where
  qualityCutoffNotMet : Option Bool
  customFormatScore : Option Int
deriving DecidableEq

/-- A `movie` record as read by `get_radarr_upgradeables`; `movieFile` embeds
the response of `_get(f"moviefile/{movie['movieFileId']}")` (`none` = request
failed). -/
structure RadarrMovie where
  id : Nat
  title : String
  monitored : Option Bool
  hasFile : Option Bool
  qualityProfileId : Option Nat
  movieFile : Option MovieFile
deriving DecidableEq

/-- The external state one Radarr scan observes. -/
structure RadarrEnv where
  connected : Bool
  queueResp : Option QueueResp
  profiles : List (Nat × ProfileInfo)
  movies : Option (List RadarrMovie)
deriving DecidableEq

/-- The loop body of `get_radarr_upgradeables`, app.py lines 230-287, for one
movie: returns the ("cutoff unmet", "cf upgradeable") contributions (each
empty or a singleton).  Tier 2 is an `elif` of tier 1 and additionally
requires the profile to define `cutoffFormatScore`. -/
def radarrStep (profiles : List (Nat × ProfileInfo)) (history : History)
    (now cooldown : Int) (movie : RadarrMovie) : List SearchItem × List SearchItem :=
  if !(movie.monitored.getD false && movie.hasFile.getD false) then ([], [])
  else if cooldownActive history ("radarr-" ++ toString movie.id) now cooldown then ([], [])
  else
    match movie.movieFile with
    | none => ([], [])
    | some f =>
      if f.qualityCutoffNotMet.getD false then
        ([{ id := movie.id,
            title := movie.title ++ " (Reason: Quality cutoff not met)",
            type := "movie" }], [])
      else
        match cutoffScoreOf profiles movie.qualityProfileId with
        | none => ([], [])
        | some c =>
          let cur := f.customFormatScore.getD 0
          if cur < c then
            ([], [{ id := movie.id,
                    title := movie.title ++ " (Reason: CF score " ++ toString cur
                      ++ " < cutoff " ++ toString c ++ ")",
                    type := "movie" }])
          else ([], [])

/-- Concatenate per-item contributions into the two result lists, preserving
the loop's append order. -/
def pairConcat (l : List (List SearchItem × List SearchItem)) :
    List SearchItem × List SearchItem :=
  (l.flatMap Prod.fst, l.flatMap Prod.snd)

/-- `get_radarr_upgradeables`, app.py lines 185-320 (the classification; the
returned `ArrService` handle and logging are dropped): failed connection,
tripped queue gate, empty profile map or failed movie fetch abort with two
empty lists; otherwise every movie is classified by `radarrStep`. -/
def getRadarrUpgradeables (env : RadarrEnv) (queueLimit : Option Int)
    (history : History) (now cooldown : Int) : List SearchItem × List SearchItem :=
  if !env.connected then ([], [])
  else if queueGateSkips queueLimit env.queueResp then ([], [])
  else if env.profiles.isEmpty then ([], [])
  else
    match env.movies with
    | none => ([], [])
    | some movies => pairConcat (movies.map (radarrStep env.profiles history now cooldown))

/-- An `episode` record as returned by `_get("episode", episodeFileId=...)`. -/
structure SonarrEpisode where
  id : Nat
  seasonNumber : Nat
  episodeNumber : Nat
  title : Option String
  monitored : Option Bool
deriving DecidableEq

/-- An `episodefile` record; `episodes` embeds the response of
`_get("episode", params={"episodeFileId": file["id"]})` (`none` = request
failed). -/
structure EpisodeFileEntry where
  id : Nat
  qualityCutoffNotMet : Option Bool
  customFormatScore : Option Int
  episodes : Option (List SonarrEpisode)
deriving DecidableEq

/-- A `series` record as read by `get_sonarr_upgradeables`;
`episodeFileCount` is `series.get("statistics", {}).get("episodeFileCount", 0)`
and `episodeFiles` embeds the response of
`_get("episodefile", params={"seriesId": series["id"]})`.  The `monitored`
flag is present in the data but only read for debug output. -/
structure SonarrSeries where
  id : Nat
  title : String
  monitored : Option Bool
  qualityProfileId : Nat
  episodeFileCount : Option Nat
  episodeFiles : Option (List EpisodeFileEntry)
deriving DecidableEq

/-- The external state one Sonarr scan observes. -/
structure SonarrEnv where
  connected : Bool
  queueResp : Option QueueResp
  profiles : List (Nat × ProfileInfo)
  series : Option (List SonarrSeries)
deriving DecidableEq

/-- The inner loop body of `get_sonarr_upgradeables`, app.py lines 384-430,
for one episode file.  Faithful to the source's indentation: the statements
under the `# Priority 2` comment (lines 421-430) are indented inside the
`if episode_file.get("qualityCutoffNotMet", False):` branch, so they run
exactly when tier 1 fires — a tier-1 file is appended to **both** lists and a
file failing only the score test is appended to neither. -/
def sonarrFileStep (seriesTitle : String) (seriesId : Nat) (cutoffScore : Int)
    (history : History) (now cooldown : Int) (entry : EpisodeFileEntry) :
    List SearchItem × List SearchItem :=
  let cur := entry.customFormatScore.getD 0
  match entry.episodes with
  | none => ([], [])
  | some [] => ([], [])
  | some (ep :: _) =>
    let t := seriesTitle ++ " - S" ++ pad2 ep.seasonNumber ++ "E" ++ pad2 ep.episodeNumber
      ++ " - " ++ ep.title.getD "N/A"
    if !(ep.monitored.getD false) then ([], [])
    else if cooldownActive history ("sonarr-" ++ toString ep.id) now cooldown then ([], [])
    else if entry.qualityCutoffNotMet.getD false then
      ([{ id := ep.id,
          title := t ++ " (Reason: Quality cutoff not met)",
          type := "episode", seriesId := seriesId, seasonNumber := ep.seasonNumber }],
       [{ id := ep.id,
          title := t ++ " (Reason: CF score " ++ toString cur
            ++ " < cutoff " ++ toString cutoffScore ++ ")",
          type := "episode", seriesId := seriesId, seasonNumber := ep.seasonNumber }])
    else ([], [])

/-- The outer loop body of `get_sonarr_upgradeables`, app.py lines 367-430,
for one series: skip when `episodeFileCount` is 0, when the profile defines no
`cutoffFormatScore`, or when the episode-file fetch fails or returns an empty
list; otherwise classify every episode file. -/
def sonarrSeriesStep (profiles : List (Nat × ProfileInfo)) (history : History)
    (now cooldown : Int) (series : SonarrSeries) : List SearchItem × List SearchItem :=
  if series.episodeFileCount.getD 0 == 0 then ([], [])
  else
    match cutoffScoreOf profiles (some series.qualityProfileId) with
    | none => ([], [])
    | some c =>
      match series.episodeFiles with
      | none => ([], [])
      | some files =>
        pairConcat (files.map (sonarrFileStep series.title series.id c history now cooldown))

/-- `get_sonarr_upgradeables`, app.py lines 322-458 (the classification; the
returned `ArrService` handle and logging are dropped). -/
def getSonarrUpgradeables (env : SonarrEnv) (queueLimit : Option Int)
    (history : History) (now cooldown : Int) : List SearchItem × List SearchItem :=
  if !env.connected then ([], [])
  else if queueGateSkips queueLimit env.queueResp then ([], [])
  else if env.profiles.isEmpty then ([], [])
  else
    match env.series with
    | none => ([], [])
    | some series => pairConcat (series.map (sonarrSeriesStep env.profiles history now cooldown))

/-- Observable effects of a run on its collaborators: the in-memory history
update of `update_history`, the `POST command` calls of `trigger_search` and
of the season-search loop, and the history persistence of `save_history`. -/
inductive Event where
  | histUpdate (keys : List String)
  | postMoviesSearch (service : Nat) (movieIds : List Nat)
  | postEpisodeSearch (service : Nat) (episodeIds : List Nat)
  | postSeasonSearch (service : Nat) (seriesId : Nat) (seasonNumber : Nat)
  | saveHistory (h : History)
deriving DecidableEq

/-- Whether an event is a search-command dispatch to the external service. -/
def isPost : Event → Bool
  | .postMoviesSearch _ _ => true
  | .postEpisodeSearch _ _ => true
  | .postSeasonSearch _ _ _ => true
  | _ => false

/-- The service an event is addressed to, `none` for non-dispatch events. -/
def eventService : Event → Option Nat
  | .postMoviesSearch s _ => some s
  | .postEpisodeSearch s _ => some s
  | .postSeasonSearch s _ _ => some s
  | _ => none

/-- Python `dict` key order: first occurrences, kept in encounter order.
`seen` accumulates keys already emitted. -/
def dedupFrom [DecidableEq α] (seen : List α) : List α → List α
  | [] => []
  | k :: ks => if k ∈ seen then dedupFrom seen ks else k :: dedupFrom (k :: seen) ks

/-- The distinct elements of a list, first occurrences first — the key order
a Python `dict` built by repeated insertion iterates in. -/
def firstDedup [DecidableEq α] (l : List α) : List α :=
  dedupFrom [] l

/-- The `searches_by_service` grouping of `trigger_grouped_searches`, app.py
lines 563-573: one group per service in first-occurrence order, holding the
service's movies and episodes in item order (items of any other type create
the group but join neither list). -/
def groupByService (items : List SearchItem) :
    List (Nat × List SearchItem × List SearchItem) :=
  (firstDedup (items.map (fun it => it.service))).map (fun svc =>
    (svc,
     items.filter (fun it => it.service == svc && it.type == "movie"),
     items.filter (fun it => it.service == svc && it.type == "episode")))

/-- `ArrService.trigger_search`, app.py lines 157-183, reduced to its
dispatch effect: nothing when the id list is empty or in dry-run mode,
otherwise one `POST command` event. -/
def triggerSearchEvents (dryRun : Bool) (mk : List Nat → Event) (ids : List Nat) : List Event :=
  if ids.isEmpty then []
  else if dryRun then []
  else [mk ids]

/-- `item.get('search_mode', 'episode')`, app.py line 597. -/
def searchModeOf (it : SearchItem) : String :=
  it.searchMode.getD "episode"

/-- The distinct `(seriesId, seasonNumber)` pairs of the season-mode episodes,
in first-occurrence order — the keys of `seasons_to_search`, app.py
lines 610-615. -/
def seasonKeys (eps : List SearchItem) : List (Nat × Nat) :=
  firstDedup (eps.map (fun e => (e.seriesId, e.seasonNumber)))

/-- The dispatch events one service group emits, `trigger_grouped_searches`
body, app.py lines 580-634: a batched `MoviesSearch`, a batched
`EpisodeSearch` for episode-mode episodes, and one `SeasonSearch` per
distinct `(seriesId, seasonNumber)` of the season-mode episodes; dry-run
emits nothing. -/
def serviceEvents (dryRun : Bool) (g : Nat × List SearchItem × List SearchItem) : List Event :=
  let svc := g.1
  let movies := g.2.1
  let episodes := g.2.2
  let movieEvs := if movies.isEmpty then []
    else triggerSearchEvents dryRun (Event.postMoviesSearch svc) (movies.map (fun m => m.id))
  let epMode := episodes.filter (fun e => searchModeOf e == "episode")
  let seasonMode := episodes.filter (fun e => searchModeOf e == "season")
  let epEvs := if epMode.isEmpty then []
    else triggerSearchEvents dryRun (Event.postEpisodeSearch svc) (epMode.map (fun e => e.id))
  let seasonEvs := if seasonMode.isEmpty then []
    else if dryRun then []
    else (seasonKeys seasonMode).map (fun p => Event.postSeasonSearch svc p.1 p.2)
  movieEvs ++ epEvs ++ seasonEvs

/-- `trigger_grouped_searches`, app.py lines 553-634: group the selection by
service; unless dry-running, update the history for the whole batch **first**
(lines 575-578) and then dispatch the grouped search commands.  Returns the
updated history and the ordered effect trace. -/
def triggerGroupedSearches (items : List SearchItem) (h : History) (now : Int)
    (dryRun : Bool) : History × List Event :=
  let groups := groupByService items
  let h' := if dryRun then h else updateHistory items h now
  let evs := (if dryRun then [] else [Event.histUpdate (items.map historyKey)])
    ++ groups.flatMap (serviceEvents dryRun)
  (h', evs)

/-- One configured instance as `main` sees it after classification: the two
candidate lists returned by the `get_*_upgradeables` call, the per-instance
caps (`num_cutoff_unmet_to_upgrade`, `num_to_upgrade`) and the identity data
attached to selected items (app.py lines 840-845). -/
structure MainInstance where
  service : Nat
  serviceType : String
  searchMode : String
  cutoffItems : List SearchItem
  cfItems : List SearchItem
  cap1 : Nat
  cap2 : Nat
deriving DecidableEq

/-- The field attachment of app.py lines 841-845: `main` stamps each selected
item with its service, service type and (Sonarr only) the instance's search
mode. -/
def attachInfo (inst : MainInstance) (it : SearchItem) : SearchItem :=
  { it with
    service := inst.service,
    serviceType := inst.serviceType,
    searchMode := if inst.serviceType == "sonarr" then some inst.searchMode else it.searchMode }

/-- The per-instance selection of `main`, app.py lines 816-830: tier 1 draws
`min(len(cutoff_unmet_items), cutoff_limit, remaining)` items, then — only
when the remaining global budget is still positive — tier 2 draws
`min(len(cf_upgradeable_items), cf_limit, remaining)`.  `random.sample`'s
draw of `k` distinct items is modelled as taking the first `k` (the
surrounding logic depends only on the number drawn).  Returns the remaining
global budget and the two drawn lists. -/
def allocStep (g : Nat) (inst : MainInstance) : Nat × List SearchItem × List SearchItem :=
  let n1 := min (min inst.cutoffItems.length inst.cap1) g
  let sel1 := inst.cutoffItems.take n1
  let g1 := g - sel1.length
  if 0 < g1 then
    let n2 := min (min inst.cfItems.length inst.cap2) g1
    let sel2 := inst.cfItems.take n2
    (g1 - sel2.length, sel1, sel2)
  else
    (g1, sel1, [])

/-- The instance loop of `main`, app.py lines 809-858: select per
`allocStep`; when nothing was selected move on; otherwise attach the instance
info, run `trigger_grouped_searches`, and stop processing further instances
once the remaining global budget is exhausted (`<= 0`, i.e. `= 0` — it never
goes below).  Returns the remaining budget, the final history, the effect
trace, and the per-instance selections. -/
def runMain (dryRun : Bool) (now : Int) :
    Nat → History → List MainInstance →
    Nat × History × List Event × List (List SearchItem × List SearchItem)
  | g, h, [] => (g, h, [], [])
  | g, h, inst :: rest =>
    let r := allocStep g inst
    let g' := r.1
    let sel1 := r.2.1
    let sel2 := r.2.2
    let items := (sel1 ++ sel2).map (attachInfo inst)
    if items.isEmpty then
      let rec' := runMain dryRun now g' h rest
      (rec'.1, rec'.2.1, rec'.2.2.1, (sel1, sel2) :: rec'.2.2.2)
    else
      let tr := triggerGroupedSearches items h now dryRun
      if g' == 0 then
        (g', tr.1, tr.2, [(sel1, sel2)])
      else
        let rec' := runMain dryRun now g' tr.1 rest
        (rec'.1, rec'.2.1, tr.2 ++ rec'.2.2.1, (sel1, sel2) :: rec'.2.2.2)

/-- `main`'s run around the instance loop, app.py lines 803-862: a global cap
of `0` clears the instance list before the loop, and the history is persisted
(`save_history`) at the end unless dry-running. -/
def mainProcess (dryRun : Bool) (now : Int) (g0 : Nat) (h : History)
    (insts : List MainInstance) :
    Nat × History × List Event × List (List SearchItem × List SearchItem) :=
  let r := runMain dryRun now g0 h (if g0 == 0 then [] else insts)
  (r.1, r.2.1, r.2.2.1 ++ (if dryRun then [] else [Event.saveHistory r.2.1]), r.2.2.2)

/-- The total number of items selected across all instances of a run. -/
def selTotal (sels : List (List SearchItem × List SearchItem)) : Nat :=
  (sels.map (fun p => p.1.length + p.2.length)).sum

/-! ## Concrete evaluation scenarios

These mirror the fixtures of the repository's own `tests/test_app.py`:
profile 1 with `cutoffFormatScore = 1000`, series 1 "Test Series" with one
episode file and episode id 10. -/

/-- Profile 1 with score cutoff 1000 (fixture of `test_issue_3`). -/
def demoProfiles : List (Nat × ProfileInfo) := [(1, ⟨some 1000, "HD-1080p"⟩)]

/-- Episode 10, S01E01 "Test Ep", monitored. -/
def demoEpisode : SonarrEpisode := ⟨10, 1, 1, some "Test Ep", some true⟩

/-- Sonarr state whose single episode file has `qualityCutoffNotMet = true`
and score 2000 (at/above the 1000 cutoff). -/
def envTierBoth : SonarrEnv :=
  ⟨true, none, demoProfiles,
   some [⟨1, "Test Series", some true, 1, some 1,
          some [⟨100, some true, some 2000, some [demoEpisode]⟩]⟩]⟩

/-- Sonarr state of `test_issue_3`: `qualityCutoffNotMet = false`, score 500
below the 1000 cutoff. -/
def envScoreOnly : SonarrEnv :=
  ⟨true, none, demoProfiles,
   some [⟨1, "Test Series", some true, 1, some 1,
          some [⟨100, some false, some 500, some [demoEpisode]⟩]⟩]⟩

/-- History holding only the season-granularity dedup key of series 1,
season 1, stamped at time 500 (fixture of `test_issue_5`). -/
def histSeason : History := [("sonarr-series-1-season-1", 500)]

/-- A series that is itself unmonitored but has a downloaded, monitored
episode (id 20) whose file misses the quality cutoff. -/
def envUnmonitoredSeries : SonarrEnv :=
  ⟨true, none, demoProfiles,
   some [⟨2, "Unwatched Series", some false, 1, some 1,
          some [⟨200, some true, some 0, some [⟨20, 2, 3, some "Ep", some true⟩]⟩]⟩]⟩

/-- A monitored series with `episodeFileCount = 0`. -/
def zeroFilesSeries : SonarrSeries := ⟨3, "Zero Files", some true, 1, some 0, none⟩

/-- Episode 10 of series 1 season 1, selected under season search mode on
service 7 (fixture of `test_issue_5`). -/
def seasonSelectedItem : SearchItem :=
  { id := 10, title := "Test Series - S01E01 - Test Ep", type := "episode",
    seriesId := 1, seasonNumber := 1, service := 7, serviceType := "sonarr",
    searchMode := some "season" }

/-! ## Theorems -/

/-- C1: refuted on the code.  In `get_sonarr_upgradeables` the tier-2 block
(app.py lines 421-430) is indented inside the `qualityCutoffNotMet` branch,
so (a) an episode whose file has `qualityCutoffNotMet = true` is appended to
**both** candidate lists — with a tier-2 reason string computed from a score
that was never compared against the cutoff — and (b) the episode of
`test_issue_3` (`qualityCutoffNotMet = false`, score 500 < cutoff 1000) is
placed in **neither** list, although the claim requires it in the tier-2 list
with reason "CF score 500 < cutoff 1000". -/
theorem sonarr_tier_misnesting :
    ((getSonarrUpgradeables envTierBoth none [] 600 3600).1.map (fun i => i.id) = [10] ∧
     (getSonarrUpgradeables envTierBoth none [] 600 3600).2.map (fun i => i.id) = [10] ∧
     (getSonarrUpgradeables envTierBoth none [] 600 3600).2.map (fun i => i.title) =
       ["Test Series - S01E01 - Test Ep (Reason: CF score 2000 < cutoff 1000)"]) ∧
    getSonarrUpgradeables envScoreOnly none [] 600 3600 = ([], []) := by
  exact ⟨⟨rfl, rfl, rfl⟩, rfl⟩

/-- C2: refuted on the code.  The cooldown check of the classification pass
looks up only the per-item key `"sonarr-<episodeId>"` (app.py lines 404-408);
with a history holding only the season-granularity key
`"sonarr-series-1-season-1"` well within cooldown (stamp 500, now 600,
cooldown 3600), episode 10 of that season is still classified into the
cutoff-unmet list.  The repository's `test_issue_5` asserts the season key
must be respected. -/
theorem sonarr_season_key_cooldown_ignored :
    getKey histSeason "sonarr-series-1-season-1" = some 500 ∧
    ((600 : Int) - 500 < 3600) ∧
    (getSonarrUpgradeables envTierBoth none histSeason 600 3600).1.map (fun i => i.id)
      = [10] := by
  exact ⟨rfl, by decide, rfl⟩

/-- C4 counterexample: the series-level `monitored` flag is never checked by
`get_sonarr_upgradeables` (app.py lines 367-377 test only `episodeFileCount`
and the profile's `cutoffFormatScore`); a monitored episode of an unmonitored
series is classified, contradicting the claim that such a series is skipped
upfront. -/
theorem sonarr_unmonitored_series_classified :
    (envUnmonitoredSeries.series.getD []).map (fun s => s.monitored) = [some false] ∧
    (getSonarrUpgradeables envUnmonitoredSeries none [] 600 3600).1.map (fun i => i.id)
      = [20] := by
  exact ⟨rfl, rfl⟩

/-- C4 amended: a whole series is skipped before any of its episode files are
classified whenever its `episodeFileCount` is 0 or its quality profile has no
`cutoffFormatScore` (and also when the episode-file fetch fails); such a
series contributes nothing to either candidate list.  Series-level
`monitored` is *not* among the skip conditions. -/
theorem sonarr_series_skip_conditions (profiles : List (Nat × ProfileInfo))
    (history : History) (now cooldown : Int) (series : SonarrSeries)
    (h : series.episodeFileCount.getD 0 = 0 ∨
      cutoffScoreOf profiles (some series.qualityProfileId) = none) :
    sonarrSeriesStep profiles history now cooldown series = ([], []) := by
  rcases h with h | h
  · simp [sonarrSeriesStep, h]
  · unfold sonarrSeriesStep
    rw [h]
    split
    · rfl
    · rfl

/-- Witness for `sonarr_series_skip_conditions` at a concrete series with
zero episode files. -/
theorem sonarr_series_skip_conditions_witness :
    zeroFilesSeries.episodeFileCount.getD 0 = 0 ∧
    sonarrSeriesStep demoProfiles [] 600 3600 zeroFilesSeries = ([], []) :=
  ⟨rfl, sonarr_series_skip_conditions demoProfiles [] 600 3600 zeroFilesSeries (Or.inl rfl)⟩

/-- C5: refuted on the code.  `update_history` (app.py lines 680-690) records
every selected item — season-mode episodes included — only under the per-item
key `"<serviceType>-<itemId>"`; the season-granularity key the claim (and the
repository's `test_issue_5`) requires is never written. -/
theorem update_history_no_season_key :
    updateHistory [seasonSelectedItem] [] 1000 = [("sonarr-10", 1000)] ∧
    getKey (updateHistory [seasonSelectedItem] [] 1000) "sonarr-series-1-season-1"
      = none := by
  exact ⟨rfl, rfl⟩

/-- C6 counterexample: a missing `NUM_CUTOFF_UNMET_TO_UPGRADE` yields cap `0`
(app.py line 499: "Default to 0 if not specified"), not the unlimited
sentinel the claim states. -/
theorem cutoff_cap_missing_not_unlimited :
    normNumCutoffUnmet none = 0 ∧ normNumCutoffUnmet none ≠ sysMaxsize := by
  refine ⟨rfl, ?_⟩
  intro h
  simp [normNumCutoffUnmet, sysMaxsize] at h

/-- C6 amended: configuration loading normalizes a configured cap of 0 to 0
and a negative (or unparsable) configured cap to the unlimited sentinel for
both tiers; a *missing* cap however normalizes to unlimited only for
`NUM_TO_UPGRADE`, while a missing `NUM_CUTOFF_UNMET_TO_UPGRADE` defaults to
0. -/
theorem cap_normalization :
    (normNumToUpgrade none = sysMaxsize ∧ normNumCutoffUnmet none = 0) ∧
    (∀ (s : String) (v : Int), pyInt s = some v →
      normNumToUpgrade (some s) = (if v < 0 then sysMaxsize else v.toNat) ∧
      normNumCutoffUnmet (some s) = (if v < 0 then sysMaxsize else v.toNat)) ∧
    (∀ s : String, pyInt s = none →
      normNumToUpgrade (some s) = sysMaxsize ∧
      normNumCutoffUnmet (some s) = sysMaxsize) := by
  refine ⟨⟨rfl, rfl⟩, ?_, ?_⟩
  · intro s v h
    constructor
    · simp [normNumToUpgrade, h]
    · simp [normNumCutoffUnmet, h]
  · intro s h
    constructor
    · simp [normNumToUpgrade, h]
    · simp [normNumCutoffUnmet, h]

/-- Witness for `cap_normalization` at the concrete values "0", "-1" and a
non-numeric string. -/
theorem cap_normalization_witness :
    (normNumToUpgrade (some "0") = 0 ∧ normNumCutoffUnmet (some "0") = 0) ∧
    (normNumToUpgrade (some "-1") = sysMaxsize ∧
     normNumCutoffUnmet (some "-1") = sysMaxsize) ∧
    (normNumToUpgrade (some "oops") = sysMaxsize ∧
     normNumCutoffUnmet (some "oops") = sysMaxsize) := by
  have h0 := (cap_normalization.2.1) "0" 0 rfl
  have h1 := (cap_normalization.2.1) "-1" (-1) rfl
  have h2 := (cap_normalization.2.2) "oops" rfl
  refine ⟨⟨?_, ?_⟩, ⟨?_, ?_⟩, h2⟩
  · simpa using h0.1
  · simpa using h0.2
  · simpa using h1.1
  · simpa using h1.2

/-- The tier-1 draw of `allocStep` has size
`min(len(cutoff_unmet_items), cutoff_limit, remaining)`. -/
theorem allocStep_len1 (g : Nat) (inst : MainInstance) :
    (allocStep g inst).2.1.length = min (min inst.cutoffItems.length inst.cap1) g := by
  simp only [allocStep, List.length_take]
  split <;> simp [List.length_take]

/-- The tier-2 draw of `allocStep` has size
`min(len(cf_upgradeable_items), cf_limit, remaining)` when the remaining
global budget is still positive after tier 1, and size 0 otherwise. -/
theorem allocStep_len2 (g : Nat) (inst : MainInstance) :
    (allocStep g inst).2.2.length =
      if 0 < g - min (min inst.cutoffItems.length inst.cap1) g
      then min (min inst.cfItems.length inst.cap2)
             (g - min (min inst.cutoffItems.length inst.cap1) g)
      else 0 := by
  simp only [allocStep, List.length_take]
  split <;> split <;> simp [List.length_take] <;> omega

/-- `allocStep` conserves the global budget: the remaining budget plus the
two draw sizes equals the incoming budget (in particular the budget never
overdraws). -/
theorem allocStep_conserve (g : Nat) (inst : MainInstance) :
    (allocStep g inst).1 + ((allocStep g inst).2.1.length + (allocStep g inst).2.2.length)
      = g := by
  simp only [allocStep, List.length_take]
  split
  · simp only [List.length_take]
    omega
  · simp only [List.length_take, List.length_nil]
    omega

/-- Budget conservation over the whole instance loop, break included. -/
theorem runMain_budget (dryRun : Bool) (now : Int) :
    ∀ (insts : List MainInstance) (g : Nat) (h : History),
      (runMain dryRun now g h insts).1
        + selTotal (runMain dryRun now g h insts).2.2.2 = g := by
  intro insts
  induction insts with
  | nil => intro g h; simp [runMain, selTotal]
  | cons inst rest ih =>
    intro g h
    have hstep := allocStep_conserve g inst
    rw [runMain]
    split
    · simp only [selTotal, List.map_cons, List.sum_cons]
      have := ih (allocStep g inst).1 h
      simp only [selTotal] at this
      omega
    · split
      · rename_i hz
        simp only [selTotal, List.map_cons, List.sum_cons, List.map_nil, List.sum_nil]
        omega
      · simp only [selTotal, List.map_cons, List.sum_cons]
        have := ih (allocStep g inst).1
          (triggerGroupedSearches (((allocStep g inst).2.1 ++ (allocStep g inst).2.2).map
            (attachInfo inst)) h now dryRun).1
        simp only [selTotal] at this
        omega

/-- C3: confirmed.  Per instance, `main` (app.py lines 816-830) draws exactly
`min(|tier1|, cutoff_limit, remaining)` tier-1 items, then — only when the
remaining global budget is positive — `min(|tier2|, cf_limit, remaining)`
tier-2 items; over the whole run (instance loop with its early break,
`MAX_UPGRADES == 0` clearing included) the remaining global budget equals the
initial cap minus the total number of selected items, which never exceeds the
cap (so, computing in naturals without truncation, it never goes negative). -/
theorem allocator_budget_invariant (dryRun : Bool) (now : Int) (g0 : Nat)
    (h : History) (insts : List MainInstance) :
    (∀ (g : Nat) (inst : MainInstance),
      (allocStep g inst).2.1.length = min (min inst.cutoffItems.length inst.cap1) g ∧
      (allocStep g inst).2.2.length =
        (if 0 < g - min (min inst.cutoffItems.length inst.cap1) g
         then min (min inst.cfItems.length inst.cap2)
                (g - min (min inst.cutoffItems.length inst.cap1) g)
         else 0) ∧
      (allocStep g inst).1
        + ((allocStep g inst).2.1.length + (allocStep g inst).2.2.length) = g) ∧
    (mainProcess dryRun now g0 h insts).1
      + selTotal (mainProcess dryRun now g0 h insts).2.2.2 = g0 ∧
    selTotal (mainProcess dryRun now g0 h insts).2.2.2 ≤ g0 := by
  have hmain : (mainProcess dryRun now g0 h insts).1
      + selTotal (mainProcess dryRun now g0 h insts).2.2.2 = g0 := by
    simp only [mainProcess]
    exact runMain_budget dryRun now _ g0 h
  refine ⟨fun g inst => ⟨allocStep_len1 g inst, allocStep_len2 g inst,
    allocStep_conserve g inst⟩, hmain, by omega⟩

/-- Every event a service group emits is a dispatch addressed to that
group's service. -/
theorem mem_serviceEvents_shape {e : Event} {d : Bool}
    {g : Nat × List SearchItem × List SearchItem} (he : e ∈ serviceEvents d g) :
    isPost e = true ∧ eventService e = some g.1 := by
  obtain ⟨svc, movies, episodes⟩ := g
  simp only [serviceEvents, triggerSearchEvents] at he
  rcases List.mem_append.1 he with h1 | hseason
  · rcases List.mem_append.1 h1 with hm | hep
    · split_ifs at hm <;> simp_all [isPost, eventService]
    · split_ifs at hep <;> simp_all [isPost, eventService]
  · split_ifs at hseason
    · simp at hseason
    · simp at hseason
    · rcases List.mem_map.1 hseason with ⟨p, hp, rfl⟩
      exact ⟨rfl, rfl⟩

/-- C7: confirmed.  In a non-dry run, `trigger_grouped_searches` (app.py
lines 575-585) updates the in-memory history with all of the batch's dedup
keys first; everything after that history update in the effect trace is a
dispatch. -/
theorem history_update_precedes_dispatch (items : List SearchItem) (h : History)
    (now : Int) :
    (triggerGroupedSearches items h now false).1 = updateHistory items h now ∧
    ∃ rest, (triggerGroupedSearches items h now false).2
        = Event.histUpdate (items.map historyKey) :: rest ∧
      ∀ e ∈ rest, isPost e = true := by
  refine ⟨rfl, (groupByService items).flatMap (serviceEvents false), rfl, ?_⟩
  intro e he
  rcases List.mem_flatMap.1 he with ⟨g, _, heg⟩
  exact (mem_serviceEvents_shape heg).1

/-- Dry-running suppresses every dispatch of a service group. -/
theorem serviceEvents_dry (g : Nat × List SearchItem × List SearchItem) :
    serviceEvents true g = [] := by
  obtain ⟨svc, movies, episodes⟩ := g
  simp [serviceEvents, triggerSearchEvents]

/-- A flat map of empty lists is empty. -/
theorem flatMap_serviceEvents_dry (gs : List (Nat × List SearchItem × List SearchItem)) :
    gs.flatMap (serviceEvents true) = [] := by
  induction gs with
  | nil => rfl
  | cons g gs ih => simp [serviceEvents_dry, ih]

/-- Dry-running `trigger_grouped_searches` leaves the history untouched and
emits no events at all. -/
theorem triggerGroupedSearches_dry (items : List SearchItem) (h : History) (now : Int) :
    triggerGroupedSearches items h now true = (h, []) := by
  simp [triggerGroupedSearches, flatMap_serviceEvents_dry]

/-- Dry-running the instance loop leaves the history untouched and emits no
events. -/
theorem runMain_dry (now : Int) :
    ∀ (insts : List MainInstance) (g : Nat) (h : History),
      (runMain true now g h insts).2.1 = h ∧ (runMain true now g h insts).2.2.1 = [] := by
  intro insts
  induction insts with
  | nil => intro g h; simp [runMain]
  | cons inst rest ih =>
    intro g h
    rw [runMain]
    simp only [triggerGroupedSearches_dry]
    split
    · exact ih _ h
    · split
      · exact ⟨rfl, rfl⟩
      · have := ih (allocStep g inst).1 h
        simpa using this

/-- C8: confirmed.  With `DRY_RUN` set, a whole run neither posts any search
command nor touches the history: the history mapping comes back unchanged
and the effect trace is empty — no dispatch (`trigger_search` and the season
loop return before posting, app.py lines 176-179 and 630-631), no in-memory
history update (line 577), and no `save_history` (line 861). -/
theorem dry_run_frame (now : Int) (g0 : Nat) (h : History) (insts : List MainInstance) :
    (mainProcess true now g0 h insts).2.1 = h ∧
    (mainProcess true now g0 h insts).2.2.1 = [] := by
  simp only [mainProcess]
  have := runMain_dry now (if g0 == 0 then [] else insts) g0 h
  exact ⟨by simpa using this.1, by simpa using this.2⟩

/-- Membership in `dedupFrom`: the elements of the source not yet seen. -/
theorem mem_dedupFrom {α : Type} [DecidableEq α] (a : α) :
    ∀ (l seen : List α), a ∈ dedupFrom seen l ↔ a ∈ l ∧ a ∉ seen := by
  intro l
  induction l with
  | nil => intro seen; simp [dedupFrom]
  | cons k ks ih =>
    intro seen
    by_cases hk : k ∈ seen
    · rw [show dedupFrom seen (k :: ks) = dedupFrom seen ks by simp [dedupFrom, hk], ih]
      constructor
      · rintro ⟨h1, h2⟩; exact ⟨List.mem_cons_of_mem _ h1, h2⟩
      · rintro ⟨h1, h2⟩
        rcases List.mem_cons.1 h1 with rfl | h1
        · exact absurd hk h2
        · exact ⟨h1, h2⟩
    · rw [show dedupFrom seen (k :: ks) = k :: dedupFrom (k :: seen) ks by
        simp [dedupFrom, hk]]
      constructor
      · intro h1
        rcases List.mem_cons.1 h1 with rfl | h1
        · exact ⟨List.mem_cons_self _ _, hk⟩
        · rw [ih] at h1
          exact ⟨List.mem_cons_of_mem _ h1.1,
            fun hs => h1.2 (List.mem_cons_of_mem _ hs)⟩
      · rintro ⟨h1, h2⟩
        rcases List.mem_cons.1 h1 with rfl | h1
        · exact List.mem_cons_self _ _
        · by_cases hak : a = k
          · subst hak; exact List.mem_cons_self _ _
          · apply List.mem_cons_of_mem
            rw [ih]
            refine ⟨h1, fun hs => ?_⟩
            rcases List.mem_cons.1 hs with h | h
            · exact hak h
            · exact h2 h

/-- `dedupFrom` emits no duplicates. -/
theorem nodup_dedupFrom {α : Type} [DecidableEq α] :
    ∀ (l seen : List α), (dedupFrom seen l).Nodup := by
  intro l
  induction l with
  | nil => intro seen; simp [dedupFrom]
  | cons k ks ih =>
    intro seen
    by_cases hk : k ∈ seen
    · rw [show dedupFrom seen (k :: ks) = dedupFrom seen ks by simp [dedupFrom, hk]]
      exact ih seen
    · rw [show dedupFrom seen (k :: ks) = k :: dedupFrom (k :: seen) ks by
        simp [dedupFrom, hk]]
      refine List.nodup_cons.2 ⟨fun hmem => ?_, ih _⟩
      exact ((mem_dedupFrom k ks (k :: seen)).1 hmem).2 (List.mem_cons_self _ _)

/-- `firstDedup` emits no duplicates. -/
theorem nodup_firstDedup {α : Type} [DecidableEq α] (l : List α) :
    (firstDedup l).Nodup :=
  nodup_dedupFrom l []

/-- An element of the source occurs exactly once in its `firstDedup`. -/
theorem count_firstDedup {α : Type} [DecidableEq α] {a : α} {l : List α} (ha : a ∈ l) :
    (firstDedup l).count a = 1 :=
  List.count_eq_one_of_mem (nodup_firstDedup l)
    ((mem_dedupFrom a l []).2 ⟨ha, by simp⟩)

/-- Counting distributes over `flatMap`. -/
theorem count_flatMap {α β : Type} [BEq α] (a : α) (f : β → List α) :
    ∀ l : List β, (l.flatMap f).count a = (l.map fun x => (f x).count a).sum := by
  intro l
  induction l with
  | nil => simp
  | cons x xs ih => simp [List.count_append, ih]

/-- Summing a map over a duplicate-free list in which every element but `x`
contributes zero gives the contribution of `x`. -/
theorem sum_map_single {ι : Type} {gs : List ι} {f : ι → Nat} {x : ι}
    (hnd : gs.Nodup) (hm : x ∈ gs) (hz : ∀ y ∈ gs, y ≠ x → f y = 0) :
    (gs.map f).sum = f x := by
  induction gs with
  | nil => cases hm
  | cons k ks ih =>
    rcases List.nodup_cons.1 hnd with ⟨hk, hks⟩
    rcases List.mem_cons.1 hm with rfl | hm2
    · have hzero : (ks.map f).sum = 0 := by
        apply List.sum_eq_zero
        intro y hy
        rcases List.mem_map.1 hy with ⟨g, hg, rfl⟩
        exact hz g (List.mem_cons_of_mem _ hg) (fun hgx => hk (hgx ▸ hg))
      simp [hzero]
    · have hkx : k ≠ x := fun hkx => hk (hkx ▸ hm2)
      simp [hz k (List.mem_cons_self _ _) hkx,
        ih hks hm2 (fun y hy => hz y (List.mem_cons_of_mem _ hy))]

/-- A service group whose episode list contains a season-mode episode with
key `(s, n)` emits exactly one `SeasonSearch` for `(s, n)`. -/
theorem count_season_serviceEvents (svc s n : Nat)
    (movies episodes : List SearchItem)
    (hmem : ∃ e ∈ episodes, searchModeOf e = "season" ∧
      e.seriesId = s ∧ e.seasonNumber = n) :
    (serviceEvents false (svc, movies, episodes)).count (Event.postSeasonSearch svc s n)
      = 1 := by
  obtain ⟨e0, he0, hmode, hs, hn⟩ := hmem
  have hfil : e0 ∈ episodes.filter (fun e => searchModeOf e == "season") :=
    List.mem_filter.2 ⟨he0, by simp [hmode]⟩
  have hinj : Function.Injective (fun p : Nat × Nat => Event.postSeasonSearch svc p.1 p.2) := by
    intro p q hpq
    cases p; cases q
    simpa using hpq
  simp only [serviceEvents, triggerSearchEvents]
  rw [List.count_append, List.count_append]
  have hmovie :
      (if movies.isEmpty then []
       else if (movies.map (fun m => m.id)).isEmpty then []
       else if false = true then [] else [Event.postMoviesSearch svc (movies.map fun m => m.id)]).count
        (Event.postSeasonSearch svc s n) = 0 := by
    apply List.count_eq_zero.2
    intro hmem2
    split_ifs at hmem2 <;> simp_all
  have hep :
      (if (episodes.filter fun e => searchModeOf e == "episode").isEmpty then []
       else if ((episodes.filter fun e => searchModeOf e == "episode").map (fun e => e.id)).isEmpty then []
       else if false = true then []
       else [Event.postEpisodeSearch svc
         ((episodes.filter fun e => searchModeOf e == "episode").map fun e => e.id)]).count
        (Event.postSeasonSearch svc s n) = 0 := by
    apply List.count_eq_zero.2
    intro hmem2
    split_ifs at hmem2 <;> simp_all
  have hnonempty : (episodes.filter fun e => searchModeOf e == "season").isEmpty = false := by
    rcases hq : (episodes.filter fun e => searchModeOf e == "season") with _ | ⟨a, l⟩
    · rw [hq] at hfil; cases hfil
    · rfl
  have hseason :
      (if (episodes.filter fun e => searchModeOf e == "season").isEmpty then []
       else if false = true then []
       else (seasonKeys (episodes.filter fun e => searchModeOf e == "season")).map
         (fun p => Event.postSeasonSearch svc p.1 p.2)).count
        (Event.postSeasonSearch svc s n) = 1 := by
    rw [if_neg (by simp [hnonempty]), if_neg (by simp)]
    have hkey : (s, n) ∈ (episodes.filter fun e => searchModeOf e == "season").map
        (fun e => (e.seriesId, e.seasonNumber)) :=
      List.mem_map.2 ⟨e0, hfil, by simp [hs, hn]⟩
    have := List.count_map_of_injective
      (seasonKeys (episodes.filter fun e => searchModeOf e == "season"))
      (fun p : Nat × Nat => Event.postSeasonSearch svc p.1 p.2) hinj (s, n)
    simpa [this] using count_firstDedup hkey
  omega

/-- A service group addressed to a different service emits no `SeasonSearch`
for `(svc, s, n)`. -/
theorem count_season_other_group {svc s n g : Nat} (hne : g ≠ svc)
    (movies episodes : List SearchItem) :
    (serviceEvents false (g, movies, episodes)).count (Event.postSeasonSearch svc s n)
      = 0 := by
  apply List.count_eq_zero.2
  intro hmem
  have hsh := (mem_serviceEvents_shape hmem).2
  simp only [eventService] at hsh
  exact hne (by injection hsh with h; exact h.symm)

/-- C9: confirmed.  A non-dry selection containing one or more episodes of
the same instance that share `(seriesId, seasonNumber)` and are tagged with
season search mode produces exactly one `SeasonSearch` dispatch for that
pair (`trigger_grouped_searches`, app.py lines 607-634, deduplicates via the
`seasons_to_search` dict). -/
theorem season_search_emitted_once (items : List SearchItem) (h : History) (now : Int)
    (svc s n : Nat)
    (hw : ∃ it ∈ items, it.service = svc ∧ it.type = "episode" ∧
      searchModeOf it = "season" ∧ it.seriesId = s ∧ it.seasonNumber = n) :
    ((triggerGroupedSearches items h now false).2).count (Event.postSeasonSearch svc s n)
      = 1 := by
  obtain ⟨it0, hit0, hsvc, htype, hmode, hs, hn⟩ := hw
  have hexp : (triggerGroupedSearches items h now false).2
      = Event.histUpdate (items.map historyKey)
        :: (groupByService items).flatMap (serviceEvents false) := rfl
  rw [hexp, List.count_cons, count_flatMap]
  have hc : ((Event.histUpdate (items.map historyKey))
      == Event.postSeasonSearch svc s n) = false := by rfl
  rw [hc]
  have hred : (if (false = true) then 1 else 0) = 0 := rfl
  rw [hred, Nat.add_zero]
  simp only [groupByService, List.map_map, Function.comp_def]
  have hmemsvc : svc ∈ firstDedup (items.map fun it => it.service) :=
    (mem_dedupFrom svc _ []).2 ⟨List.mem_map.2 ⟨it0, hit0, hsvc⟩, by simp⟩
  have hz : ∀ y ∈ firstDedup (items.map fun it => it.service), y ≠ svc →
      (serviceEvents false (y,
        items.filter (fun it => it.service == y && it.type == "movie"),
        items.filter (fun it => it.service == y && it.type == "episode"))).count
        (Event.postSeasonSearch svc s n) = 0 := by
    intro y hy hyne
    exact count_season_other_group hyne _ _
  rw [sum_map_single (nodup_firstDedup _) hmemsvc hz]
  have hfil : it0 ∈ items.filter (fun it => it.service == svc && it.type == "episode") :=
    List.mem_filter.2 ⟨hit0, by simp [hsvc, htype]⟩
  simpa using count_season_serviceEvents svc s n _ _ ⟨it0, hfil, hmode, hs, hn⟩

/-- Witness for `season_search_emitted_once`: two selected episodes of
series 1 season 1 on service 7 yield exactly one `SeasonSearch 7 1 1`. -/
theorem season_search_emitted_once_witness :
    ((triggerGroupedSearches [seasonSelectedItem, { seasonSelectedItem with id := 11 }]
        [] 1000 false).2).count (Event.postSeasonSearch 7 1 1) = 1 :=
  season_search_emitted_once _ [] 1000 7 1 1
    ⟨seasonSelectedItem, List.mem_cons_self _ _, rfl, rfl, rfl, rfl, rfl⟩

/-- C10: confirmed.  `get_queue_size` returns 0 when the queue read fails;
hence an instance with a configured (hence, after `load_configs`
normalization, non-negative) `queueSizeLimit` trips the queue gate on a
failed read exactly when the limit is 0, and any positive limit lets
classification proceed as if the queue were empty. -/
theorem queue_gate_failed_read (s : String) (lim : Int)
    (hnorm : normQueueSizeLimit (some s) = some lim) :
    getQueueSize none = 0 ∧
    (queueGateSkips (some lim) none = true ↔ lim = 0) ∧
    (0 < lim → queueGateSkips (some lim) none = false) := by
  have hlim : 0 ≤ lim := by
    rcases hp : pyInt s with _ | v
    · simp [normQueueSizeLimit, hp] at hnorm
    · simp only [normQueueSizeLimit, hp] at hnorm
      by_cases hv : v < 0
      · simp [hv] at hnorm
      · simp only [if_neg hv, Option.some.injEq] at hnorm
        omega
  refine ⟨rfl, ?_, ?_⟩
  · simp only [queueGateSkips, getQueueSize, decide_eq_true_eq]
    omega
  · intro hpos
    simp only [queueGateSkips, getQueueSize, decide_eq_false_iff_not]
    omega

/-- Witness for `queue_gate_failed_read` at `QUEUE_SIZE_LIMIT = "0"`. -/
theorem queue_gate_failed_read_witness :
    getQueueSize none = 0 ∧
    (queueGateSkips (some (0 : Int)) none = true ↔ (0 : Int) = 0) ∧
    ((0 : Int) < 0 → queueGateSkips (some (0 : Int)) none = false) :=
  queue_gate_failed_read "0" 0 rfl

end CFSearch
